import Mathlib

/-!
Shallow embedding of src/missions/mission4/py/main.py, a FastAPI service
exposing a health endpoint, a paginated product listing, a vector-similarity
product search backed by a stored procedure, and two chat endpoints.

External collaborators (the SQL database, the stored procedure
dbo.get_similar_items, the hosted chat model, and the standard JSON parser)
are modelled as parameters or as explicit semantic functions:

- A stored-procedure execution is a function from the search term to either a
  database error or a pair of (result sets produced by the procedure, value of
  the @out output parameter).  The batch sent by the code ends with the
  statement SELECT @out AS error, whose T-SQL semantics is one additional
  result set with the single column error and exactly one row.
- A result set either carries a column descriptor together with its rows, or
  is a non-row-returning statement result with no descriptor and hence no
  rows (DB-API semantics: cursor.description is None exactly when the current
  statement produced no rows to fetch, and fetchall then yields nothing).
- The chat model is a function from (product text, user message) to the
  completion text; the JSON parser of chat_structured is a function from a
  string to an optional JSON value.

Each database-touching handler is embedded as a function returning a pair of
(the Except-valued outcome, the number of times connection.close() ran): the
Python code calls connection.close() only after the query succeeds, so an
exception raised by cursor.execute propagates with no close call, which the
embedding makes explicit in the second component.
-/

namespace SqlAi

/-- Value is a model of the Python values that can appear in a database row:
None, a string, or a number (modelled as an integer). -/
inductive Value where
  | none : Value
  | str (s : String) : Value
  | int (n : Int) : Value
deriving DecidableEq, Repr

/-- Row models one fetched database row, a tuple of column values. -/
abbrev Row := List Value

/-- Dict models a Python dict built by dict(zip(columns, row)): an ordered
association of column names to values. -/
abbrev Dict := List (String × Value)

/-- pyReprValue renders a Value the way Python repr renders the corresponding
element inside a list or tuple: None, a quoted string, or the decimal
integer. -/
def pyReprValue : Value → String
  | Value.none => "None"
  | Value.str s => "'" ++ s ++ "'"
  | Value.int n => toString n

/-- commaJoin joins a list of strings with the separator comma-space, the way
Python repr lays out the elements of a list or a tuple. -/
def commaJoin : List String → String
  | [] => ""
  | [a] => a
  | a :: b :: rest => a ++ ", " ++ commaJoin (b :: rest)

/-- pyReprRow renders a row the way Python repr renders a tuple: a
single-element tuple has a trailing comma, every other arity is the
comma-joined elements in parentheses. -/
def pyReprRow : Row → String
  | [v] => "(" ++ pyReprValue v ++ ",)"
  | vs => "(" ++ commaJoin (vs.map pyReprValue) ++ ")"

/-- pyStrList renders a list of rows the way str(results) does on line 90 of
the source: the bracketed comma-joined tuple representations, with the empty
list rendered as the two-character string of an opening and closing
bracket. -/
def pyStrList (rows : List Row) : String :=
  "[" ++ commaJoin (rows.map pyReprRow) ++ "]"

/-- ResultSet models one tabular output of a statement in the executed batch.
A rowset carries the column descriptor (cursor.description) and its rows; a
norows result models a statement outcome with no column descriptor, for which
cursor.description is None and no rows are fetchable. -/
inductive ResultSet where
  | rowset (columns : List String) (rows : List Row) : ResultSet
  | norows : ResultSet
deriving DecidableEq, Repr

/-- fetchall gives the rows cursor.fetchall() returns on the current result
set: the stored rows of a rowset, and nothing for a descriptor-less result. -/
def fetchall : ResultSet → List Row
  | ResultSet.rowset _ rows => rows
  | ResultSet.norows => []

/-- dictZip models dict(zip(columns, row)) as used on lines 119 and 145:
pairing column names with row values, truncated to the shorter list. -/
def dictZip (cols : List String) (row : Row) : Dict :=
  cols.zip row

/-- fetchDicts gives the mapping rows that the loop body of search_products
(lines 141 to 147) accumulates from one result set: when the descriptor is
present, each fetched row zipped with the column names, and nothing when the
descriptor is absent. -/
def fetchDicts : ResultSet → List Dict
  | ResultSet.rowset cols rows => rows.map (dictZip cols)
  | ResultSet.norows => []

/-- fetchLoopRaw is the fetch loop of find_products (lines 82 to 86): fetch
the current result set, extend the accumulator with the raw rows, advance
with nextset, repeat until no result set remains. -/
def fetchLoopRaw (sets : List ResultSet) : List Row :=
  (sets.map fetchall).flatten

/-- fetchDictLoop is the fetch loop of search_products (lines 141 to 147):
like fetchLoopRaw, but each result set contributes its rows as dicts keyed by
its own active descriptor, and a descriptor-less result set contributes
nothing. -/
def fetchDictLoop (sets : List ResultSet) : List Dict :=
  (sets.map fetchDicts).flatten

/-- DbErr models an exception raised by the database driver. -/
structure DbErr where
  msg : String
deriving DecidableEq, Repr

/-- DbProc models the external stored procedure dbo.get_similar_items: given
the input text, it either raises or produces its result sets together with
the value bound to the @error output parameter. -/
abbrev DbProc := String → Except DbErr (List ResultSet × Value)

/-- errorSelect is the result set produced by the final batch statement
SELECT @out AS error: one column named error and exactly one row holding the
output-parameter value. -/
def errorSelect (outv : Value) : ResultSet :=
  ResultSet.rowset ["error"] [[outv]]

/-- execBatch models cursor.execute on the SQL batch of lines 74 to 77 (and
identically lines 133 to 136): on success the visible result sets are those
of the stored procedure followed by the one-row result set of the trailing
SELECT of the output parameter. -/
def execBatch (proc : DbProc) (term : String) : Except DbErr (List ResultSet) :=
  (proc term).map (fun p => p.1 ++ [errorSelect p.2])

/-- find_products embeds the helper of lines 69 to 90.  The first component
is the outcome: the str() rendering of all raw rows accumulated across all
result sets, or the propagated execute exception.  The second component
counts how many times connection.close() ran: once on the success path (line
89), and zero times when execute raises, since no try/finally guards the
close call. -/
def find_products (proc : DbProc) (term : String) : Except DbErr String × Nat :=
  match execBatch proc term with
  | Except.error e => (Except.error e, 0)
  | Except.ok sets => (Except.ok (pyStrList (fetchLoopRaw sets)), 1)

/-- ProductSearchResponse mirrors the response model of lines 55 to 57. -/
structure ProductSearchResponse where
  query : String
  results : List Dict
deriving DecidableEq, Repr

/-- search_products embeds the handler of lines 127 to 152: the same batch as
find_products, but rows are accumulated as dicts keyed by the descriptor
active at fetch time, skipping descriptor-less result sets.  The close count
is as in find_products. -/
def search_products (proc : DbProc) (query : String) :
    Except DbErr ProductSearchResponse × Nat :=
  match execBatch proc query with
  | Except.error e => (Except.error e, 0)
  | Except.ok sets =>
      (Except.ok { query := query, results := fetchDictLoop sets }, 1)

/-- ChatResponse mirrors the response model of lines 49 to 52. -/
structure ChatResponse where
  user_message : String
  assistant_response : String
  products_found : Bool
deriving DecidableEq, Repr

/-- ChatModel models the hosted chat model: a function from the product text
embedded in the system prompt and the user message to the completion text. -/
abbrev ChatModel := String → String → String

/-- chat embeds the handler of lines 155 to 180: it runs find_products on the
message, sends the conversation to the model, and sets products_found by the
Python truthiness of (product_results and product_results != two-bracket
string), which is true exactly when the text is neither empty nor the literal
rendering of an empty list.  An exception from find_products propagates. -/
def chat (proc : DbProc) (model : ChatModel) (message : String) :
    Except DbErr ChatResponse × Nat :=
  match find_products proc message with
  | (Except.error e, k) => (Except.error e, k)
  | (Except.ok text, k) =>
      (Except.ok
        { user_message := message
          assistant_response := model text message
          products_found := (text != "") && (text != "[]") }, k)

/-- Json models the values produced by json.loads. -/
inductive Json where
  | null : Json
  | bool (b : Bool) : Json
  | num (n : Int) : Json
  | str (s : String) : Json
  | arr (xs : List Json) : Json
  | obj (fields : List (String × Json)) : Json

/-- parse_model_response embeds the try/except of lines 211 to 215: parse the
completion text with json.loads and return the parsed value as is, or, when
parsing fails, the fallback object with the single key raw_response holding
the original text. -/
def parse_model_response (loads : String → Option Json) (t : String) : Json :=
  match loads t with
  | some v => v
  | Option.none => Json.obj [("raw_response", Json.str t)]

/-- chat_structured embeds the handler of lines 183 to 215: find_products on
the message, the structured prompt sent to the model, and the fallible JSON
parse of the completion.  A parse failure is recovered locally and never
surfaces as an error; only a database exception propagates. -/
def chat_structured (loads : String → Option Json) (proc : DbProc)
    (model : ChatModel) (message : String) : Except DbErr Json × Nat :=
  match find_products proc message with
  | (Except.error e, k) => (Except.error e, k)
  | (Except.ok text, k) =>
      (Except.ok (parse_model_response loads (model text message)), k)

/-- health_check embeds the handler of lines 97 to 100: a fixed payload
depending on nothing. -/
def health_check : List (String × String) :=
  [("status", "healthy"), ("service", "SQL AI API")]

/-- ProductRow models one row of the external table
dbo.walmart_ecommerce_product_details restricted to the six columns selected
by the listing query of lines 110 to 115. -/
structure ProductRow where
  id : Int
  item_id : Value
  product_name : Value
  product_category : Value
  price_retail : Value
  price_current : Value
deriving DecidableEq, Repr

/-- productIdLe is the comparison realised by the ORDER BY id clause. -/
def productIdLe (a b : ProductRow) : Bool :=
  decide (a.id ≤ b.id)

/-- sortById models the ORDER BY id clause: the stable sort of the table rows
by ascending id. -/
def sortById (table : List ProductRow) : List ProductRow :=
  table.mergeSort productIdLe

/-- productDict is dict(zip(columns, row)) on line 119 for the fixed column
list of the SELECT: the six selected columns paired with the row values. -/
def productDict (r : ProductRow) : Dict :=
  [("id", Value.int r.id), ("item_id", r.item_id),
   ("product_name", r.product_name), ("product_category", r.product_category),
   ("price_retail", r.price_retail), ("price_current", r.price_current)]

/-- sqlPage is the T-SQL semantics of the SELECT of lines 110 to 115 with a
given OFFSET and FETCH NEXT count: the server rejects a negative OFFSET and a
FETCH count below one, and otherwise returns, from the rows ordered by id,
the window that skips the offset rows and takes the next count rows. -/
def sqlPage (table : List ProductRow) (offset fetchN : Int) :
    Except DbErr (List ProductRow) :=
  if offset < 0 ∨ fetchN < 1 then
    Except.error { msg := "OFFSET or FETCH value out of range" }
  else
    Except.ok (((sortById table).drop offset.toNat).take fetchN.toNat)

/-- list_rows is the window of table rows that a successful page request
returns: the sorted table with (page - 1) * n rows skipped and the next n
rows taken. -/
def list_rows (table : List ProductRow) (page n : Int) : List ProductRow :=
  ((sortById table).drop ((page - 1) * n).toNat).take n.toNat

/-- get_products_offset is the offset computation of line 109. -/
def get_products_offset (page page_size : Int) : Int :=
  (page - 1) * page_size

/-- get_products_query is the f-string of lines 110 to 115: the offset and
the page size are interpolated directly into the SQL text. -/
def get_products_query (page page_size : Int) : String :=
  "\n        SELECT id, item_id, product_name, product_category, price_retail, price_current\n        FROM dbo.walmart_ecommerce_product_details\n        ORDER BY id\n        OFFSET "
    ++ toString (get_products_offset page page_size)
    ++ " ROWS FETCH NEXT " ++ toString page_size ++ " ROWS ONLY\n    "

/-- ProductsPage mirrors the response dict of line 124. -/
structure ProductsPage where
  page : Int
  page_size : Int
  products : List Dict
deriving DecidableEq, Repr

/-- get_products embeds the handler of lines 103 to 124.  The database is
abstracted as dbExec, the execution of the interpolated query for a given
offset and fetch count; instantiating dbExec with sqlPage table gives the
behaviour against a concrete table.  The defaults of page and page_size are
those of line 104.  The close count is as in find_products: one close on
success, none when execution raises. -/
def get_products (dbExec : Int → Int → Except DbErr (List ProductRow))
    (page : Int := 1) (page_size : Int := 10) :
    Except DbErr ProductsPage × Nat :=
  match dbExec (get_products_offset page page_size) page_size with
  | Except.error e => (Except.error e, 0)
  | Except.ok rows =>
      (Except.ok
        { page := page, page_size := page_size
          products := rows.map productDict }, 1)

/-! Concrete instances used to exercise the handlers on explicit inputs. -/

/-- noMatchProc models the stored procedure on a catalog with no matches for
the query: the procedure succeeds, emits one result set with a descriptor and
no rows, and binds no error to the output parameter. -/
def noMatchProc : DbProc :=
  fun _ => Except.ok ([ResultSet.rowset ["id", "product_name"] []], Value.none)

/-- sampleProc models a successful procedure call returning one matching
row. -/
def sampleProc : DbProc :=
  fun _ =>
    Except.ok
      ([ResultSet.rowset ["id", "product_name"] [[Value.int 1, Value.str "Lamp"]]],
       Value.none)

/-- failProc models a stored-procedure execution that raises. -/
def failProc : DbProc :=
  fun _ => Except.error { msg := "boom" }

/-- sampleModel is a concrete chat-model stand-in with a fixed completion. -/
def sampleModel : ChatModel :=
  fun _ _ => "No relevant products found."

/-- sampleTable is a concrete four-row product table with distinct ids, given
out of order to exercise the ORDER BY semantics. -/
def sampleTable : List ProductRow :=
  [{ id := 2, item_id := Value.int 12, product_name := Value.str "Desk"
     product_category := Value.str "Furniture", price_retail := Value.int 120
     price_current := Value.int 100 },
   { id := 1, item_id := Value.int 11, product_name := Value.str "Lamp"
     product_category := Value.str "Lighting", price_retail := Value.int 40
     price_current := Value.int 35 },
   { id := 4, item_id := Value.int 14, product_name := Value.str "Chair"
     product_category := Value.str "Furniture", price_retail := Value.int 80
     price_current := Value.int 75 },
   { id := 3, item_id := Value.int 13, product_name := Value.str "Rug"
     product_category := Value.str "Decor", price_retail := Value.int 60
     price_current := Value.int 55 }]

/-- sampleLoads is a concrete stand-in for json.loads that recognises exactly
one input string. -/
def sampleLoads : String → Option Json :=
  fun s =>
    if s = "\x7b\x7d" then some (Json.obj []) else Option.none

/-! Auxiliary lemmas about the Python string rendering. -/

/-- commaJoin of a nonempty list is at least as long as its head. -/
theorem length_head_le_commaJoin (a : String) (l : List String) :
    a.length ≤ (commaJoin (a :: l)).length := by
  cases l with
  | nil => simp [commaJoin]
  | cons b rest =>
      simp only [commaJoin, String.length_append]
      omega

/-- The tuple rendering of a row is at least two characters long. -/
theorem two_le_length_pyReprRow (r : Row) : 2 ≤ (pyReprRow r).length := by
  have hop : "(".length = 1 := rfl
  have hcl : ")".length = 1 := rfl
  have hct : ",)".length = 2 := rfl
  have hpair : "()".length = 2 := rfl
  match r with
  | [v] =>
      simp only [pyReprRow, String.length_append]
      omega
  | [] =>
      simp only [pyReprRow, List.map, commaJoin, String.length_append, hop, hcl]
      omega
  | v₁ :: v₂ :: vs =>
      simp only [pyReprRow, String.length_append]
      omega

/-- The list rendering of a row list is never the empty string. -/
theorem pyStrList_ne_empty_str (rows : List Row) : pyStrList rows ≠ "" := by
  intro h
  have hlen := congrArg String.length h
  have hop : "[".length = 1 := rfl
  have hcl : "]".length = 1 := rfl
  have hnil : "".length = 0 := rfl
  simp only [pyStrList, String.length_append, hop, hcl, hnil] at hlen
  omega

/-- The list rendering of a nonempty row list is never the two-character
empty-list form. -/
theorem pyStrList_cons_ne_brackets (r : Row) (rs : List Row) :
    pyStrList (r :: rs) ≠ "[]" := by
  intro h
  have hlen := congrArg String.length h
  have h2 : 2 ≤ (pyReprRow r).length := two_le_length_pyReprRow r
  have hc : (pyReprRow r).length ≤ (commaJoin (pyReprRow r :: rs.map pyReprRow)).length :=
    length_head_le_commaJoin _ _
  have hop : "[".length = 1 := rfl
  have hcl : "]".length = 1 := rfl
  have hbr : "[]".length = 2 := rfl
  simp only [pyStrList, List.map, String.length_append, hop, hcl, hbr] at hlen
  omega

/-- The raw fetch loop distributes over concatenation of result-set lists. -/
theorem fetchLoopRaw_append (s₁ s₂ : List ResultSet) :
    fetchLoopRaw (s₁ ++ s₂) = fetchLoopRaw s₁ ++ fetchLoopRaw s₂ := by
  simp [fetchLoopRaw]

/-- The dict fetch loop distributes over concatenation of result-set lists. -/
theorem fetchDictLoop_append (s₁ s₂ : List ResultSet) :
    fetchDictLoop (s₁ ++ s₂) = fetchDictLoop s₁ ++ fetchDictLoop s₂ := by
  simp [fetchDictLoop]

/-- On a successful procedure call, find_products returns the rendering of
the procedure rows followed by the single row of the trailing error SELECT,
and closes the connection once. -/
theorem find_products_ok (proc : DbProc) (term : String) (sets : List ResultSet)
    (outv : Value) (h : proc term = Except.ok (sets, outv)) :
    find_products proc term =
      (Except.ok (pyStrList (fetchLoopRaw sets ++ [[outv]])), 1) := by
  simp [find_products, execBatch, Except.map, h, fetchLoopRaw_append, errorSelect,
    fetchLoopRaw, fetchall]

/-- On a successful procedure call, search_products returns the dict rows of
the procedure followed by the single error dict row, and closes the
connection once. -/
theorem search_products_ok (proc : DbProc) (q : String) (sets : List ResultSet)
    (outv : Value) (h : proc q = Except.ok (sets, outv)) :
    search_products proc q =
      (Except.ok { query := q, results := fetchDictLoop sets ++ [[("error", outv)]] },
       1) := by
  simp [search_products, execBatch, Except.map, h, fetchDictLoop_append, errorSelect,
    fetchDictLoop, fetchDicts, dictZip]

/-- A successful find_products outcome always comes from a successful
procedure call, and its text is the rendering of the procedure rows followed
by the error row. -/
theorem find_products_ok_inv (proc : DbProc) (term : String) (text : String)
    (k : Nat) (h : find_products proc term = (Except.ok text, k)) :
    ∃ sets outv, proc term = Except.ok (sets, outv) ∧ k = 1 ∧
      text = pyStrList (fetchLoopRaw sets ++ [[outv]]) := by
  cases hp : proc term with
  | error e => simp [find_products, execBatch, Except.map, hp] at h
  | ok p =>
      obtain ⟨sets, outv⟩ := p
      rw [find_products_ok proc term sets outv hp] at h
      obtain ⟨h₁, h₂⟩ := Prod.mk.injEq .. ▸ h
      exact ⟨sets, outv, rfl, h₂.symm, (Except.ok.injEq .. ▸ h₁).symm⟩

/-- A row list ending in the error row renders neither as the empty string
nor as the empty-list form. -/
theorem pyStrList_append_single (l : List Row) (x : Row) :
    pyStrList (l ++ [x]) ≠ "[]" ∧ pyStrList (l ++ [x]) ≠ "" := by
  cases l with
  | nil => exact ⟨pyStrList_cons_ne_brackets x [], pyStrList_ne_empty_str _⟩
  | cons a t => exact ⟨pyStrList_cons_ne_brackets a (t ++ [x]), pyStrList_ne_empty_str _⟩

/-! Claim theorems. -/

/-- C9: the health endpoint returns exactly the fixed payload with status
healthy and service SQL AI API; the handler consults no state and no
dependency, so the payload is the same for every process state. -/
theorem health_check_fixed_payload :
    health_check = [("status", "healthy"), ("service", "SQL AI API")] := rfl

/-- C4: both fetch loops concatenate the contributions of all result sets in
fetch order; a result set with a descriptor contributes its rows (as dicts
keyed by that descriptor in the mapping form, raw in the text form), and a
descriptor-less result set contributes no rows; and each handler applies its
loop to the result sets of the executed batch. -/
theorem fetch_concat_characterization :
    ∀ (sets₁ sets₂ : List ResultSet) (cols : List String) (rows : List Row)
      (proc : DbProc) (q term : String),
      fetchDictLoop (sets₁ ++ sets₂) = fetchDictLoop sets₁ ++ fetchDictLoop sets₂
      ∧ fetchDictLoop [ResultSet.rowset cols rows] = rows.map (dictZip cols)
      ∧ fetchDictLoop [ResultSet.norows] = []
      ∧ fetchLoopRaw (sets₁ ++ sets₂) = fetchLoopRaw sets₁ ++ fetchLoopRaw sets₂
      ∧ fetchLoopRaw [ResultSet.rowset cols rows] = rows
      ∧ fetchLoopRaw [ResultSet.norows] = []
      ∧ (search_products proc q).1 =
          (execBatch proc q).map
            (fun sets => { query := q, results := fetchDictLoop sets })
      ∧ (find_products proc term).1 =
          (execBatch proc term).map (fun sets => pyStrList (fetchLoopRaw sets)) := by
  intro sets₁ sets₂ cols rows proc q term
  refine ⟨fetchDictLoop_append sets₁ sets₂, ?_, rfl, fetchLoopRaw_append sets₁ sets₂,
    ?_, rfl, ?_, ?_⟩
  · simp [fetchDictLoop, fetchDicts]
  · simp [fetchLoopRaw, fetchall]
  · cases h : execBatch proc q <;> simp [search_products, h, Except.map]
  · cases h : execBatch proc term <;> simp [find_products, h, Except.map]

/-- C2 counterexample: when the stored-procedure execution raises, the
search handler propagates the exception and the connection is closed zero
times, not once as the claim requires for the raising path. -/
theorem search_products_error_no_close :
    search_products failProc "laptop" = (Except.error { msg := "boom" }, 0)
    ∧ (search_products failProc "laptop").2 ≠ 1 := by
  exact ⟨rfl, by decide⟩

/-- C2 amended: each database-touching handler closes its connection exactly
once when the query execution succeeds, and zero times when the execution
raises, because no scoped cleanup guards the close call on the error path. -/
theorem connection_close_discipline :
    ∀ (proc : DbProc) (dbExec : Int → Int → Except DbErr (List ProductRow))
      (term q : String) (page size : Int),
      (find_products proc term).2 =
        (match (find_products proc term).1 with
         | Except.ok _ => 1
         | Except.error _ => 0)
      ∧ (search_products proc q).2 =
          (match (search_products proc q).1 with
           | Except.ok _ => 1
           | Except.error _ => 0)
      ∧ (get_products dbExec page size).2 =
          (match (get_products dbExec page size).1 with
           | Except.ok _ => 1
           | Except.error _ => 0) := by
  intro proc dbExec term q page size
  refine ⟨?_, ?_, ?_⟩
  · cases h : execBatch proc term <;> simp [find_products, h]
  · cases h : execBatch proc q <;> simp [search_products, h]
  · cases h : dbExec (get_products_offset page size) size <;> simp [get_products, h]

/-- C6 counterexample: a query matching nothing in the catalog does not
return an empty results sequence; the row of the trailing error SELECT is
always accumulated, so the results hold exactly that one dict row. -/
theorem search_no_match_returns_error_row :
    (search_products noMatchProc "zzzznonexistent").1 =
      Except.ok { query := "zzzznonexistent", results := [[("error", Value.none)]] }
    ∧ [[("error", Value.none)]] ≠ ([] : List Dict) := by
  exact ⟨rfl, by decide⟩

/-- C6 amended: a query on which the procedure succeeds while matching no
product raises no error, and its results are exactly the single dict row
contributed by the trailing error SELECT, a sequence of length one rather
than zero; emptiness of the product rows is still distinguished from failure
by exception versus absence of product rows. -/
theorem search_no_match_single_error_row :
    ∀ (proc : DbProc) (q : String) (sets : List ResultSet) (outv : Value),
      proc q = Except.ok (sets, outv) →
      (∀ rs ∈ sets, fetchDicts rs = []) →
      search_products proc q =
        (Except.ok { query := q, results := [[("error", outv)]] }, 1) := by
  intro proc q sets outv hp hempty
  have h := search_products_ok proc q sets outv hp
  have hnil : fetchDictLoop sets = [] := by
    simp only [fetchDictLoop, List.flatten_eq_nil_iff]
    intro l hl
    obtain ⟨rs, hrs, rfl⟩ := List.mem_map.mp hl
    exact hempty rs hrs
  rw [h, hnil]
  simp

/-- C6 amended witness at a concrete no-match procedure. -/
theorem search_no_match_single_error_row_witness :
    search_products noMatchProc "zzzznonexistent" =
      (Except.ok { query := "zzzznonexistent", results := [[("error", Value.none)]] },
       1) :=
  search_no_match_single_error_row noMatchProc "zzzznonexistent"
    [ResultSet.rowset ["id", "product_name"] []] Value.none rfl (by decide)

/-- C1 counterexample: for a catalog with no matches for the query the chat
response still has products_found true, because the trailing error SELECT
always contributes one row, so the search text is never the empty-list form;
the claim expects false here. -/
theorem chat_empty_catalog_products_found_true :
    (chat noMatchProc sampleModel "zzzznonexistent").1 =
      Except.ok
        { user_message := "zzzznonexistent"
          assistant_response := "No relevant products found."
          products_found := true } := rfl

/-- C1 amended: for every chat request that returns, products_found is true
iff the text of the product-search text form is non-empty and not the
empty-list form; and since the executed batch always appends the one-row
error SELECT, that text never is empty or the empty-list form, so
products_found is in fact true for every returning request, including when
the catalog has no matches. -/
theorem chat_products_found_iff_text :
    ∀ (proc : DbProc) (model : ChatModel) (msg text : String) (k : Nat)
      (r : ChatResponse),
      find_products proc msg = (Except.ok text, k) →
      (chat proc model msg).1 = Except.ok r →
      (r.products_found = true ↔ (text ≠ "" ∧ text ≠ "[]"))
      ∧ r.products_found = true := by
  intro proc model msg text k r hf hc
  have hchat : chat proc model msg =
      (Except.ok
        { user_message := msg
          assistant_response := model text msg
          products_found := (text != "") && (text != "[]") }, k) := by
    unfold chat
    rw [hf]
  rw [hchat] at hc
  have hr : r =
      { user_message := msg
        assistant_response := model text msg
        products_found := (text != "") && (text != "[]") } :=
    (Except.ok.injEq .. ▸ hc).symm
  obtain ⟨sets, outv, hp, hk, htext⟩ := find_products_ok_inv proc msg text k hf
  have hne := pyStrList_append_single (fetchLoopRaw sets) [outv]
  have h1 : text ≠ "[]" := htext ▸ hne.1
  have h2 : text ≠ "" := htext ▸ hne.2
  subst hr
  constructor
  · simp [Bool.and_eq_true, bne_iff_ne]
  · simp [Bool.and_eq_true, bne_iff_ne]
    exact ⟨h2, h1⟩

/-- C1 amended witness at a concrete no-match procedure. -/
theorem chat_products_found_iff_text_witness :
    (ChatResponse.products_found
        { user_message := "sofa"
          assistant_response := "No relevant products found."
          products_found := true } = true
      ↔ ("[(None,)]" ≠ "" ∧ "[(None,)]" ≠ "[]"))
    ∧ ChatResponse.products_found
        { user_message := "sofa"
          assistant_response := "No relevant products found."
          products_found := true } = true :=
  chat_products_found_iff_text noMatchProc sampleModel "sofa" "[(None,)]" 1
    { user_message := "sofa"
      assistant_response := "No relevant products found."
      products_found := true } rfl rfl

/-- C3: on every search term for which the batch executes successfully, the
trailing SELECT of the output parameter contributes exactly one row to the
accumulated results of both forms; hence the text form never renders the
empty-list form or the empty string, the mapping form never returns an empty
sequence, and the chat response has products_found true. -/
theorem batch_success_results_nonempty :
    ∀ (proc : DbProc) (model : ChatModel) (term : String) (sets : List ResultSet)
      (outv : Value),
      proc term = Except.ok (sets, outv) →
      find_products proc term =
        (Except.ok (pyStrList (fetchLoopRaw sets ++ [[outv]])), 1)
      ∧ search_products proc term =
          (Except.ok
            { query := term, results := fetchDictLoop sets ++ [[("error", outv)]] },
           1)
      ∧ pyStrList (fetchLoopRaw sets ++ [[outv]]) ≠ "[]"
      ∧ pyStrList (fetchLoopRaw sets ++ [[outv]]) ≠ ""
      ∧ fetchDictLoop sets ++ [[("error", outv)]] ≠ []
      ∧ ∃ r, (chat proc model term).1 = Except.ok r ∧ r.products_found = true := by
  intro proc model term sets outv hp
  have hfind := find_products_ok proc term sets outv hp
  have hsearch := search_products_ok proc term sets outv hp
  have hne := pyStrList_append_single (fetchLoopRaw sets) [outv]
  refine ⟨hfind, hsearch, hne.1, hne.2, by simp, ?_⟩
  have hchat : chat proc model term =
      (Except.ok
        { user_message := term
          assistant_response :=
            model (pyStrList (fetchLoopRaw sets ++ [[outv]])) term
          products_found :=
            (pyStrList (fetchLoopRaw sets ++ [[outv]]) != "")
              && (pyStrList (fetchLoopRaw sets ++ [[outv]]) != "[]") }, 1) := by
    unfold chat
    rw [hfind]
  refine ⟨_, by rw [hchat], ?_⟩
  simp [Bool.and_eq_true, bne_iff_ne]
  exact ⟨hne.2, hne.1⟩

/-- C3 witness at a concrete successful procedure call with one match. -/
theorem batch_success_results_nonempty_witness :
    find_products sampleProc "lamp" =
      (Except.ok
        (pyStrList
          (fetchLoopRaw
              [ResultSet.rowset ["id", "product_name"]
                [[Value.int 1, Value.str "Lamp"]]] ++ [[Value.none]])), 1)
    ∧ search_products sampleProc "lamp" =
        (Except.ok
          { query := "lamp"
            results :=
              fetchDictLoop
                  [ResultSet.rowset ["id", "product_name"]
                    [[Value.int 1, Value.str "Lamp"]]] ++
                [[("error", Value.none)]] },
         1)
    ∧ pyStrList
        (fetchLoopRaw
            [ResultSet.rowset ["id", "product_name"]
              [[Value.int 1, Value.str "Lamp"]]] ++ [[Value.none]]) ≠ "[]"
    ∧ pyStrList
        (fetchLoopRaw
            [ResultSet.rowset ["id", "product_name"]
              [[Value.int 1, Value.str "Lamp"]]] ++ [[Value.none]]) ≠ ""
    ∧ fetchDictLoop
          [ResultSet.rowset ["id", "product_name"]
            [[Value.int 1, Value.str "Lamp"]]] ++ [[("error", Value.none)]] ≠ []
    ∧ ∃ r, (chat sampleProc sampleModel "lamp").1 = Except.ok r
        ∧ r.products_found = true :=
  batch_success_results_nonempty sampleProc sampleModel "lamp"
    [ResultSet.rowset ["id", "product_name"] [[Value.int 1, Value.str "Lamp"]]]
    Value.none rfl

/-- C5: the structured chat endpoint returns the parsed JSON value as is when
the completion text parses, returns the raw_response fallback object when
parsing fails, and in either case wraps the outcome in a successful response,
so a parse failure never surfaces as an error. -/
theorem chat_structured_parse_contract :
    ∀ (loads : String → Option Json) (proc : DbProc) (model : ChatModel)
      (msg t text : String) (k : Nat) (v : Json),
      (loads t = some v → parse_model_response loads t = v)
      ∧ (loads t = Option.none →
          parse_model_response loads t = Json.obj [("raw_response", Json.str t)])
      ∧ (find_products proc msg = (Except.ok text, k) →
          chat_structured loads proc model msg =
            (Except.ok (parse_model_response loads (model text msg)), k)) := by
  intro loads proc model msg t text k v
  refine ⟨?_, ?_, ?_⟩
  · intro h
    simp [parse_model_response, h]
  · intro h
    simp [parse_model_response, h]
  · intro h
    unfold chat_structured
    rw [h]

/-- C5 witness: a concrete parser recognising one object text, exercised on a
parsing completion, a non-parsing completion, and through the endpoint. -/
theorem chat_structured_parse_contract_witness :
    parse_model_response sampleLoads "\x7b\x7d" = Json.obj []
    ∧ parse_model_response sampleLoads "I do not know" =
        Json.obj [("raw_response", Json.str "I do not know")]
    ∧ chat_structured sampleLoads noMatchProc sampleModel "sofa" =
        (Except.ok
          (parse_model_response sampleLoads
            (sampleModel "[(None,)]" "sofa")), 1) :=
  ⟨(chat_structured_parse_contract sampleLoads noMatchProc sampleModel "sofa"
      "\x7b\x7d" "[(None,)]" 1 (Json.obj [])).1 rfl,
   (chat_structured_parse_contract sampleLoads noMatchProc sampleModel "sofa"
      "I do not know" "[(None,)]" 1 (Json.obj [])).2.1 rfl,
   (chat_structured_parse_contract sampleLoads noMatchProc sampleModel "sofa"
      "I do not know" "[(None,)]" 1 (Json.obj [])).2.2 rfl⟩

/-! Auxiliary lemmas about the ordered paging semantics. -/

/-- sortById is sorted by ascending id. -/
theorem sortById_pairwise (table : List ProductRow) :
    (sortById table).Pairwise (fun a b => a.id ≤ b.id) := by
  have h := @List.sorted_mergeSort ProductRow productIdLe
    (fun a b c hab hbc => by
      simp only [productIdLe, decide_eq_true_iff] at *
      omega)
    (fun a b => by
      simp only [productIdLe, Bool.or_eq_true, decide_eq_true_iff]
      omega)
    table
  exact h.imp (fun hab => by
    simpa only [productIdLe, decide_eq_true_iff] using hab)

/-- sortById permutes the table. -/
theorem sortById_perm (table : List ProductRow) :
    (sortById table).Perm table :=
  List.mergeSort_perm table productIdLe

/-- A table whose ids are distinct sorts to a list with no duplicate rows. -/
theorem sortById_nodup (table : List ProductRow)
    (h : (table.map (fun r => r.id)).Nodup) : (sortById table).Nodup := by
  have hperm : ((sortById table).map (fun r => r.id)).Perm
      (table.map (fun r => r.id)) := (sortById_perm table).map _
  exact List.Nodup.of_map _ (hperm.nodup_iff.mpr h)

/-- Successful sqlPage executions are exactly the in-range windows over the
sorted table. -/
theorem sqlPage_ok_iff (table : List ProductRow) (offset fetchN : Int)
    (rows : List ProductRow) :
    sqlPage table offset fetchN = Except.ok rows ↔
      (0 ≤ offset ∧ 1 ≤ fetchN ∧
        rows = ((sortById table).drop offset.toNat).take fetchN.toNat) := by
  unfold sqlPage
  split
  · rename_i hcond
    constructor
    · intro h
      cases h
    · intro ⟨h1, h2, _⟩
      omega
  · rename_i hcond
    push_neg at hcond
    constructor
    · intro h
      exact ⟨hcond.1, by omega, (Except.ok.injEq .. ▸ h).symm⟩
    · intro ⟨_, _, hr⟩
      rw [hr]

/-! Claim theorems about the paginated listing. -/

/-- C7: for every table with distinct ids, every page at least one and every
page size at least one, the listing returns at most page_size rows; the
handler succeeds and returns exactly that window as dict rows; page one
followed by page two of size n equals the single page of size two n, the two
pages are disjoint, and the concatenation is ordered by id. -/
theorem pagination_consistency :
    ∀ (table : List ProductRow) (n : Int), 1 ≤ n →
      (table.map (fun r => r.id)).Nodup →
      ∀ (page : Int), 1 ≤ page →
        (list_rows table page n).length ≤ n.toNat
        ∧ (get_products (sqlPage table) page n).1 =
            Except.ok
              { page := page, page_size := n
                products := (list_rows table page n).map productDict }
        ∧ list_rows table 1 n ++ list_rows table 2 n = list_rows table 1 (2 * n)
        ∧ (list_rows table 1 n).Disjoint (list_rows table 2 n)
        ∧ ((list_rows table 1 n ++ list_rows table 2 n).map (fun r => r.id)).Sorted
            (· ≤ ·) := by
  intro table n hn hnodup page hpage
  have hsorted := sortById_pairwise table
  have hnd := sortById_nodup table hnodup
  have hpage1 : list_rows table 1 n = (sortById table).take n.toNat := by
    simp [list_rows]
  have hpage2 : list_rows table 2 n =
      ((sortById table).drop n.toNat).take n.toNat := by
    simp [list_rows]
  have htwo : (2 * n).toNat = n.toNat + n.toNat := by
    rw [two_mul]
    exact Int.toNat_add (by omega) (by omega)
  have hsplit : list_rows table 1 n ++ list_rows table 2 n =
      list_rows table 1 (2 * n) := by
    rw [hpage1, hpage2]
    simp only [list_rows]
    norm_num
    rw [htwo, List.take_add]
  refine ⟨List.length_take_le _ _, ?_, hsplit, ?_, ?_⟩
  · have hok : sqlPage table (get_products_offset page n) n =
        Except.ok (list_rows table page n) := by
      rw [sqlPage_ok_iff]
      exact ⟨mul_nonneg (by omega) (by omega), hn, rfl⟩
    simp [get_products, hok]
  · rw [hpage1, hpage2]
    intro a ha hb
    exact List.disjoint_take_drop hnd le_rfl ha (List.take_subset _ _ hb)
  · have hsub : (list_rows table 1 n ++ list_rows table 2 n).Sublist
        (sortById table) := by
      rw [hsplit, list_rows]
      exact (List.take_sublist _ _).trans (List.drop_sublist _ _)
    exact List.Pairwise.map _ (fun a b h => h) (List.Pairwise.sublist hsub hsorted)

/-- C7 witness on the concrete four-row table with page size two. -/
theorem pagination_consistency_witness :
    (list_rows sampleTable 1 2).length ≤ (2 : Int).toNat
    ∧ (get_products (sqlPage sampleTable) 1 2).1 =
        Except.ok
          { page := 1, page_size := 2
            products := (list_rows sampleTable 1 2).map productDict }
    ∧ list_rows sampleTable 1 2 ++ list_rows sampleTable 2 2 =
        list_rows sampleTable 1 (2 * 2)
    ∧ (list_rows sampleTable 1 2).Disjoint (list_rows sampleTable 2 2)
    ∧ ((list_rows sampleTable 1 2 ++ list_rows sampleTable 2 2).map
        (fun r => r.id)).Sorted (· ≤ ·) :=
  pagination_consistency sampleTable 2 (by decide) (by decide) 1 (by decide)

/-- C8: the listing handler defaults page to one and page_size to ten,
computes the zero-based offset as (page - 1) * page_size, and on success
returns exactly the ordered window that skips offset rows of the id-ordered
table and takes the next page_size rows, as column-to-value dicts in the
database row order. -/
theorem get_products_contract :
    ∀ (table : List ProductRow) (page size : Int) (rows : List ProductRow),
      sqlPage table (get_products_offset page size) size = Except.ok rows →
      get_products (sqlPage table) = get_products (sqlPage table) 1 10
      ∧ get_products_offset page size = (page - 1) * size
      ∧ rows = ((sortById table).drop (get_products_offset page size).toNat).take
          size.toNat
      ∧ (get_products (sqlPage table) page size).1 =
          Except.ok
            { page := page, page_size := size, products := rows.map productDict } := by
  intro table page size rows hok
  refine ⟨rfl, rfl, ((sqlPage_ok_iff ..).mp hok).2.2, ?_⟩
  simp [get_products, hok]

/-- C8 witness on the concrete table at page one of size two. -/
theorem get_products_contract_witness :
    get_products (sqlPage sampleTable) = get_products (sqlPage sampleTable) 1 10
    ∧ get_products_offset 1 2 = (1 - 1) * 2
    ∧ list_rows sampleTable 1 2 =
        ((sortById sampleTable).drop (get_products_offset 1 2).toNat).take
          (2 : Int).toNat
    ∧ (get_products (sqlPage sampleTable) 1 2).1 =
        Except.ok
          { page := 1, page_size := 2
            products := (list_rows sampleTable 1 2).map productDict } :=
  get_products_contract sampleTable 1 2 (list_rows sampleTable 1 2) rfl

/-- C10: the listing handler applies no bounds check to page: for any page at
most zero and positive page_size, the computed offset is negative, that
offset is interpolated verbatim into the SQL text, and the handler reaches
the database call with it, raising no local error beforehand. -/
theorem get_products_no_bounds_check :
    ∀ (page page_size : Int), page ≤ 0 → 1 ≤ page_size →
      get_products_offset page page_size < 0
      ∧ get_products_query page page_size =
          "\n        SELECT id, item_id, product_name, product_category, price_retail, price_current\n        FROM dbo.walmart_ecommerce_product_details\n        ORDER BY id\n        OFFSET "
            ++ toString (get_products_offset page page_size)
            ++ " ROWS FETCH NEXT " ++ toString page_size ++ " ROWS ONLY\n    "
      ∧ ∀ (dbExec : Int → Int → Except DbErr (List ProductRow)),
          get_products dbExec page page_size =
            (match dbExec (get_products_offset page page_size) page_size with
             | Except.error e => (Except.error e, 0)
             | Except.ok rows =>
                 (Except.ok
                   { page := page, page_size := page_size
                     products := rows.map productDict }, 1)) := by
  intro page page_size hpage hsize
  refine ⟨?_, rfl, fun dbExec => rfl⟩
  exact mul_neg_of_neg_of_pos (by omega) (by omega)

/-- C10 witness: page zero with the default page size gives offset minus ten
in the interpolated SQL text. -/
theorem get_products_no_bounds_check_witness :
    get_products_offset 0 10 < 0
    ∧ get_products_query 0 10 =
        "\n        SELECT id, item_id, product_name, product_category, price_retail, price_current\n        FROM dbo.walmart_ecommerce_product_details\n        ORDER BY id\n        OFFSET "
          ++ toString (get_products_offset 0 10)
          ++ " ROWS FETCH NEXT " ++ toString (10 : Int) ++ " ROWS ONLY\n    "
    ∧ ∀ (dbExec : Int → Int → Except DbErr (List ProductRow)),
        get_products dbExec 0 10 =
          (match dbExec (get_products_offset 0 10) 10 with
           | Except.error e => (Except.error e, 0)
           | Except.ok rows =>
               (Except.ok
                 { page := 0, page_size := 10
                   products := rows.map productDict }, 1)) :=
  get_products_no_bounds_check 0 10 (by decide) (by decide)

end SqlAi
